import Mathlib

/-!
Shallow embedding of `papatcher.py`, a patch-synchronization tool.

The embedding models the patcher's pure decision logic and its effects on
two stores, both represented as association lists from path/name to byte
content: the cache directory (one file per bundle, keyed by checksum) and
the installation tree.  External collaborators (the SHA-1 hash, the HTTP
transport, gzip decompression) are passed in as function parameters, since
the program calls out to libraries for them; every claim below quantifies
over those parameters or instantiates them concretely.

Numeric manifest fields (`offset`, `size`, `sizeZ`) are decimal strings on
the wire and in the parsed JSON dictionaries; the source keeps them as
strings and converts with `int(...)` at use sites, which the embedding
mirrors with `pyInt`.
-/

namespace Papatcher

/-- Raw byte content of a file, one natural number per byte. -/
abbrev Bytes := List Nat

/-- Conversion applied by the source at use sites, Python `int(s)` for the
decimal strings of the manifest, modelled as the usual base-10 fold over
the characters (the manifest's numeric fields are decimal digit strings;
on anything else Python would raise, outside the modelled inputs). -/
def pyInt (s : String) : Nat :=
  s.data.foldl (fun n c => n * 10 + (c.toNat - 48)) 0

/-- One file to be produced from a bundle, as parsed from the manifest
JSON.  `executable` models presence of the optional `"executable"` key. -/
structure Entry where
  filename : String
  offset : String
  size : String
  sizeZ : String
  executable : Bool
deriving DecidableEq, Repr

/-- A content-addressed unit of distribution from the manifest. -/
structure Bundle where
  checksum : String
  size : String
  entries : List Entry
deriving DecidableEq, Repr

/-- A directory of files (cache directory or installation tree): an
association list from file name to byte content. -/
abbrev Fs := List (String × Bytes)

/-- Look a file up by name, Python `path.exists()` / `open("rb")`. -/
def fsLookup (fs : Fs) (name : String) : Option Bytes :=
  (fs.find? (fun f => f.1 == name)).map (·.2)

/-- Source line 279/347 `if file.exists(): file.unlink()`: drop the entry
with the given name. -/
def fsErase (fs : Fs) (name : String) : Fs :=
  fs.filter (fun f => f.1 ≠ name)

/-- Create a fresh file (source `open("x+b")` / `open("xb")` after the
unlink): remove any file of that name, then add the new content. -/
def fsWrite (fs : Fs) (name : String) (content : Bytes) : Fs :=
  fsErase fs name ++ [(name, content)]

/-- Internal attribute state of the `PAPatcher` object that gates the
per-bundle verifier: presence of `self._stream` and of `self._bundles`
(the latter carrying the needed-bundle list being accumulated). -/
structure VState where
  hasStream : Bool
  needed : Option (List Bundle)
deriving DecidableEq, Repr

/-- Source `PAPatcher._verify_bundle` (lines 210-233): returns `False`
when `self._stream` or `self._bundles` is missing; appends the bundle to
`self._bundles` and returns `True` when the cache file is absent or its
SHA-1 digest differs from the bundle checksum; returns `True` leaving the
state alone when the digest matches. -/
def verify_bundle (sha1 : Bytes → String) (cache : Fs) (st : VState)
    (b : Bundle) : Bool × VState :=
  match st.hasStream, st.needed with
  | false, _ => (false, st)
  | true, none => (false, st)
  | true, some needed =>
    match fsLookup cache b.checksum with
    | none => (true, ⟨true, some (needed ++ [b])⟩)
    | some data =>
      if sha1 data ≠ b.checksum then (true, ⟨true, some (needed ++ [b])⟩)
      else (true, st)

/-- Cache purge loop of `PAPatcher._verify_manifest` (lines 175-186): a
cached file is deleted when `full` is set or its name is not among the
manifest checksums; it is kept otherwise. -/
def purge (full : Bool) (bundle_names : List String) (cache : Fs) : Fs :=
  cache.filter (fun f => !(full || !(bundle_names.contains f.1)))

/-- Sequential rendering of the verification pool of `_verify_manifest`
(lines 188-201): decide, per bundle, whether it must be downloaded.
Matches the cache-absent / digest-mismatch cases of `_verify_bundle`. -/
def needs (sha1 : Bytes → String) (cache : Fs) (b : Bundle) : Bool :=
  match fsLookup cache b.checksum with
  | none => true
  | some data => sha1 data != b.checksum

/-- Accumulation of `self._bundles` by the verification workers: each
bundle that `needs` downloading is appended to the list. -/
def verifyAll (sha1 : Bytes → String) (cache : Fs) (bundles : List Bundle) :
    List Bundle :=
  bundles.foldl (fun acc b => if needs sha1 cache b then acc ++ [b] else acc) []

/-- Source `PAPatcher._verify_manifest` (lines 166-208): purge the cache,
then verify every bundle of the manifest, returning the purged cache and
the needed-bundle list. -/
def verify_manifest (sha1 : Bytes → String) (full : Bool)
    (manifest : List Bundle) (cache : Fs) : Fs × List Bundle :=
  let cache' := purge full (manifest.map (·.checksum)) cache
  (cache', verifyAll sha1 cache' manifest)

theorem verifyAll_eq_filter (sha1 : Bytes → String) (cache : Fs)
    (bundles : List Bundle) :
    verifyAll sha1 cache bundles = bundles.filter (needs sha1 cache) := by
  have h : ∀ (l : List Bundle) (acc : List Bundle),
      l.foldl (fun acc b => if needs sha1 cache b then acc ++ [b] else acc) acc
        = acc ++ l.filter (needs sha1 cache) := by
    intro l
    induction l with
    | nil => intro acc; simp
    | cons b rest ih =>
      intro acc
      cases hb : needs sha1 cache b <;>
        simp [List.foldl_cons, hb, ih, List.filter_cons]
  simpa using h bundles []

/-- Source `PAPatcher._download_bundle` (lines 266-323).  The transport is
the parameter `fetch`, giving per checksum the bytes the transfer wrote
into the freshly created cache file and whether `curl.perform()` completed
without raising.  Returns `False` when `self._stream` is missing; else it
unlinks any existing cache file, creates it anew with the fetched bytes,
returns `False` on a transfer error, and otherwise compares the SHA-1 of
the written bytes with the bundle checksum, returning the comparison.  No
path removes the written file again. -/
def download_bundle (sha1 : Bytes → String) (fetch : String → Bytes × Bool)
    (hasStream : Bool) (cache : Fs) (b : Bundle) : Bool × Fs :=
  if hasStream then
    let data := (fetch b.checksum).1
    let ok := (fetch b.checksum).2
    let cache' := fsWrite cache b.checksum data
    if ok then (sha1 data == b.checksum, cache')
    else (false, cache')
  else (false, cache)

/-- Download loop of `PAPatcher.patch` (lines 244-254): bundles are
downloaded in order; a bundle whose download returned `True` is submitted
for extraction (accumulated in the third component); the first download
failure aborts with `False`.  Returns (loop result, cache, bundles whose
extraction was started). -/
def patchLoop (sha1 : Bytes → String) (fetch : String → Bytes × Bool)
    (hasStream : Bool) : List Bundle → Fs → List Bundle →
    Bool × Fs × List Bundle
  | [], cache, extracted => (true, cache, extracted)
  | b :: rest, cache, extracted =>
    let (ok, cache') := download_bundle sha1 fetch hasStream cache b
    if ok then patchLoop sha1 fetch hasStream rest cache' (extracted ++ [b])
    else (false, cache', extracted)

/-- Source `PAPatcher.patch` (lines 235-264) given the needed-bundle list:
sort by declared size, descending (line 242, Python stable sort); run the
download loop; the run succeeds when the loop did and every started
extraction reported `True` (the `as_completed` check, with each bundle's
extraction outcome abstracted as `extract_ok`). -/
def patchRun (sha1 : Bytes → String) (fetch : String → Bytes × Bool)
    (extract_ok : Bundle → Bool) (hasStream : Bool) (bundles : List Bundle)
    (cache : Fs) : Bool × Fs × List Bundle :=
  let sorted := bundles.mergeSort (fun a b => pyInt b.size ≤ pyInt a.size)
  let (ok, cache', extracted) := patchLoop sha1 fetch hasStream sorted cache []
  (ok && extracted.all extract_ok, cache', extracted)

/-- Bytes obtained by `cache_fp.seek(off)` followed by
`cache_fp.read(len)` on a file whose whole content is `blob`. -/
def readAt (blob : Bytes) (off len : Nat) : Bytes :=
  (blob.drop off).take len

/-- Per-entry content computation of `PAPatcher._extract_bundle` (lines
352-359): when the entry's `sizeZ` string is not `"0"`, read
`int(sizeZ)` bytes at the entry's offset and decompress them (the gzip
`decompress` collaborator, `none` on failure); when it is `"0"`, read
`int(size)` bytes at the offset and use them verbatim. -/
def extract_entry (decompress : Bytes → Option Bytes) (blob : Bytes)
    (e : Entry) : Option Bytes :=
  if e.sizeZ ≠ "0" then
    decompress (readAt blob (pyInt e.offset) (pyInt e.sizeZ))
  else
    some (readAt blob (pyInt e.offset) (pyInt e.size))

/-- Python string slicing `s[1:]`: drop the first character, whatever it
is; the empty string is unchanged. -/
def pyDrop1 (s : String) : String :=
  match s.data with
  | [] => s
  | _ :: rest => ⟨rest⟩

/-- Destination path computed at line 338,
`game_base / entry["filename"][1:]` with
`game_base = GAME_ROOT / stream name`: Python `[1:]` drops the first
character of the filename, whatever it is. -/
def destPath (gameRoot streamName : String) (e : Entry) : String :=
  gameRoot ++ "/" ++ streamName ++ "/" ++ pyDrop1 e.filename

/-- The specification's description of the same path step: the leading
path separator, when present, is stripped; other filenames are
unchanged. -/
def stripLeadingSep (s : String) : String :=
  match s.data with
  | '/' :: rest => ⟨rest⟩
  | _ => s

/-- Owner-execute permission bit, `stat.S_IEXEC` = 0o100. -/
def S_IEXEC : Nat := 64

/-- Permission step of `_extract_bundle` (lines 362-363): when the entry
carries the `executable` key, `chmod(st_mode | S_IEXEC)`; otherwise the
mode is left alone. -/
def applyExecutable (e : Entry) (mode : Nat) : Nat :=
  if e.executable then mode ||| S_IEXEC else mode

/-- Python `int(x)` on a number: truncation toward zero.  Byte counts
reported by the transfer layer are modelled as rationals. -/
def pyTrunc (q : ℚ) : ℤ :=
  if 0 ≤ q then ⌊q⌋ else -⌊-q⌋

/-- Fraction computed at line 45,
`(downloaded / download_total) if downloaded else 0`. -/
def fraction (download_total downloaded : ℚ) : ℚ :=
  if downloaded ≠ 0 then downloaded / download_total else 0

/-- State of a `ProgressMeter` object: `self.last_fraction`, `none` for
Python `None` as set in `__init__`. -/
structure ProgressMeter where
  last_fraction : Option ℚ
deriving DecidableEq, Repr

/-- Source `ProgressMeter.display_progress` (lines 41-54).  Returns the
new meter state and whether a progress line was printed.  Nothing is
printed when `int(download_total)` is 0.  The guard at line 48 skips the
print when `self.last_fraction` is truthy (not `None` and not 0) and the
fraction moved by less than 0.01; otherwise the fraction is stored and
printed. -/
def display_progress (m : ProgressMeter) (download_total downloaded : ℚ) :
    ProgressMeter × Bool :=
  if pyTrunc download_total = 0 then (m, false)
  else
    let f := fraction download_total downloaded
    match m.last_fraction with
    | some last =>
      if last ≠ 0 ∧ |last - f| < 1 / 100 then (m, false)
      else (⟨some f⟩, true)
    | none => (⟨some f⟩, true)

/-- Python exceptions that can arise inside `PAPatcher.get_manifest`:
`URLError` from `urlopen`, a gzip error from `decompress`, a JSON/shape
error from `loads` or field access. -/
inductive PyExc
  | urlError
  | gzipError
  | jsonError
deriving DecidableEq, Repr

/-- A stream record from the UberNet stream list (the fields of the
stream dictionaries that `papatcher.py` reads). -/
structure Stream where
  streamName : String
  downloadUrl : String
  titleFolder : String
  manifestName : String
  authSuffix : String
deriving DecidableEq, Repr

/-- Instance attributes of a `PAPatcher` object that gate and carry the
phases: `_session`, `_streams`, `_stream`, `_manifest`, `_bundles`; a
`none` models the attribute being absent (`hasattr` false). -/
structure PatcherState where
  session : Option String
  streams : Option (List (String × Stream))
  stream : Option Stream
  manifest : Option (List Bundle)
  bundles : Option (List Bundle)
deriving DecidableEq, Repr

/-- Source `PAPatcher.login` (lines 81-108) with the authentication
response abstracted as `resp` (`none` when no session ticket could be
obtained): returns `True` at once when `_session` is present; otherwise
stores the new ticket and reports whether one was obtained. -/
def login (resp : Option String) (st : PatcherState) : Bool × PatcherState :=
  match st.session with
  | some _ => (true, st)
  | none =>
    match resp with
    | none => (false, st)
    | some t => (true, { st with session := some t })

/-- Source `PAPatcher.get_streams` (lines 110-135) with the stream-list
response abstracted as `resp`: `None` without a session ticket; the
ticket is deleted before the request; on success the stream dictionary is
stored and returned. -/
def get_streams (resp : Option (List (String × Stream)))
    (st : PatcherState) : Option (List (String × Stream)) × PatcherState :=
  match st.session with
  | none => (none, st)
  | some _ =>
    let st1 := { st with session := none }
    match resp with
    | none => (none, st1)
    | some streams => (some streams, { st1 with streams := some streams })

/-- Source `PAPatcher.get_manifest` (lines 137-164) together with
`_verify_manifest`.  `fetchRaw` is the outcome of
`urlopen(...).read()`, `decompressFn` of `gzip.decompress`, `parseFn` of
`loads` plus the shape of the bundle list.  The `try` at lines 157-164
catches `URLError` only and turns it into a `False` return; any other
exception escapes the method, which the result type records as
`Except.error`.  Returns (result, new state, new cache). -/
def get_manifest (sha1 : Bytes → String) (full : Bool)
    (fetchRaw : Except PyExc Bytes)
    (decompressFn : Bytes → Except PyExc Bytes)
    (parseFn : Bytes → Except PyExc (List Bundle))
    (streamName : String) (cache : Fs) (st : PatcherState) :
    Except PyExc Bool × PatcherState × Fs :=
  match st.streams with
  | none => (.ok false, st, cache)
  | some streams =>
    match streams.find? (fun s => s.1 == streamName) with
    | none => (.ok false, st, cache)
    | some (_, strm) =>
      let st1 := { st with stream := some strm, streams := none }
      let body : Except PyExc (Bool × PatcherState × Fs) :=
        match fetchRaw with
        | .error e => .error e
        | .ok raw =>
          match decompressFn raw with
          | .error e => .error e
          | .ok txt =>
            match parseFn txt with
            | .error e => .error e
            | .ok manifest =>
              let st2 := { st1 with manifest := some manifest }
              let r := verify_manifest sha1 full manifest cache
              .ok (true,
                { st2 with manifest := none, bundles := some r.2 }, r.1)
      match body with
      | .ok (b, st', cache') => (.ok b, st', cache')
      | .error .urlError => (.ok false, st1, cache)
      | .error e => (.error e, st1, cache)

/-- Source `PAPatcher.patch` (lines 235-264) over the patcher state:
`False` when `_bundles` is absent; otherwise the run of `patchRun` on the
stored needed list, with the sorted list written back to `_bundles`
(line 242 sorts in place) — the attribute is never deleted. -/
def PAPatcher.patch (sha1 : Bytes → String) (fetch : String → Bytes × Bool)
    (extract_ok : Bundle → Bool) (cache : Fs) (st : PatcherState) :
    Bool × PatcherState × Fs :=
  match st.bundles with
  | none => (false, st, cache)
  | some bundles =>
    let sorted := bundles.mergeSort (fun a b => pyInt b.size ≤ pyInt a.size)
    let r := patchRun sha1 fetch extract_ok st.stream.isSome bundles cache
    (r.1, { st with bundles := some sorted }, r.2.1)

theorem find?_filter_of_imp {α : Type} (l : List α) (pr keep : α → Bool)
    (h : ∀ x, pr x = true → keep x = true) :
    (l.filter keep).find? pr = l.find? pr := by
  induction l with
  | nil => rfl
  | cons a l ih =>
    rw [List.filter_cons]
    cases hk : keep a
    · have hpa : pr a = false := by
        cases hpa : pr a
        · rfl
        · exact absurd (h a hpa) (by simp [hk])
      simp [List.find?_cons, hpa, ih]
    · simp only [if_pos rfl, List.find?_cons]
      cases hpa : pr a <;> simp [hpa, ih]

theorem find?_fsErase_ne (fs : Fs) (p q : String) (h : q ≠ p) :
    (fsErase fs p).find? (fun f => f.1 == q)
      = fs.find? (fun f => f.1 == q) := by
  apply find?_filter_of_imp
  intro x hx
  have hx1 : x.1 = q := by simpa using hx
  simp [hx1]
  exact fun hh => h hh

theorem fsLookup_fsErase_self (fs : Fs) (p : String) :
    fsLookup (fsErase fs p) p = none := by
  have h : (fsErase fs p).find? (fun f => f.1 == p) = none := by
    apply List.find?_eq_none.mpr
    intro x hx
    have hx1 : x.1 ≠ p := by
      have := (List.mem_filter.mp hx).2
      simpa using this
    simpa using hx1
  simp [fsLookup, h]

theorem fsLookup_fsWrite_self (fs : Fs) (p : String) (c : Bytes) :
    fsLookup (fsWrite fs p c) p = some c := by
  have h : (fsErase fs p).find? (fun f => f.1 == p) = none := by
    apply List.find?_eq_none.mpr
    intro x hx
    have hx1 : x.1 ≠ p := by
      have := (List.mem_filter.mp hx).2
      simpa using this
    simpa using hx1
  simp [fsLookup, fsWrite, List.find?_append, h]

theorem fsLookup_fsWrite_other (fs : Fs) (p q : String) (c : Bytes)
    (h : q ≠ p) :
    fsLookup (fsWrite fs p c) q = fsLookup fs q := by
  have hpq : (p == q) = false := by
    simp only [beq_eq_false_iff_ne]
    exact fun hh => h hh.symm
  simp [fsLookup, fsWrite, List.find?_append, find?_fsErase_ne fs p q h,
    List.find?_cons, hpq, Option.or_none]

/-- C1: during verification, a bundle whose cached blob exists but whose
SHA-1 digest differs from the bundle checksum is appended to the needed
list and the per-bundle verification returns success; `_verify_bundle`
returns failure exactly when `self._stream` or `self._bundles` is
missing, never for a checksum mismatch. -/
theorem C1_verify_bundle_mismatch_is_needed (sha1 : Bytes → String)
    (cache : Fs) (st : VState) (b : Bundle) (l : List Bundle) (data : Bytes)
    (hs : st.hasStream = true) (hn : st.needed = some l)
    (hc : fsLookup cache b.checksum = some data)
    (hm : sha1 data ≠ b.checksum) :
    verify_bundle sha1 cache st b = (true, ⟨true, some (l ++ [b])⟩)
    ∧ ∀ st' : VState, ((verify_bundle sha1 cache st' b).1 = false
        ↔ (st'.hasStream = false ∨ st'.needed = none)) := by
  constructor
  · obtain ⟨hs', n'⟩ := st
    simp only at hs hn
    subst hs hn
    simp [verify_bundle, hc, hm]
  · intro st'
    obtain ⟨hs', n'⟩ := st'
    cases hs' <;> cases n' <;> simp [verify_bundle]
    all_goals
      cases hcc : fsLookup cache b.checksum <;> simp [hcc]
    all_goals split <;> simp

/-- Concrete instance of C1: a cached blob for checksum "c" hashing to
"x" is appended to the needed list with the call reporting success. -/
theorem C1_witness :
    verify_bundle (fun _ => "x") [("c", [1])] ⟨true, some []⟩ ⟨"c", "0", []⟩
      = (true, ⟨true, some ([] ++ [⟨"c", "0", []⟩])⟩) :=
  (C1_verify_bundle_mismatch_is_needed (fun _ => "x") [("c", [1])]
    ⟨true, some []⟩ ⟨"c", "0", []⟩ [] [1] rfl rfl (by decide) (by decide)).1

/-- C2: a non-full verify pass keeps exactly the cached files whose names
occur among the manifest checksums and deletes the rest; a full pass
deletes every cached file; in both modes every bundle whose cache file is
absent after the purge is in the needed list. -/
theorem C2_verify_manifest_purge_and_needed (sha1 : Bytes → String)
    (full : Bool) (manifest : List Bundle) (cache : Fs) :
    (full = false → ∀ f, f ∈ (verify_manifest sha1 full manifest cache).1
        ↔ (f ∈ cache ∧ f.1 ∈ manifest.map (·.checksum)))
    ∧ (full = true → (verify_manifest sha1 full manifest cache).1 = [])
    ∧ (∀ b ∈ manifest,
        fsLookup (verify_manifest sha1 full manifest cache).1 b.checksum
          = none
        → b ∈ (verify_manifest sha1 full manifest cache).2) := by
  refine ⟨?_, ?_, ?_⟩
  · intro hf f
    subst hf
    simp [verify_manifest, purge, List.mem_filter, List.elem_iff]
  · intro hf
    subst hf
    simp [verify_manifest, purge]
  · intro b hb hlook
    have hneeds : needs sha1 (verify_manifest sha1 full manifest cache).1 b
        = true := by
      simp only [needs]
      simp only [verify_manifest] at hlook ⊢
      rw [hlook]
    have : (verify_manifest sha1 full manifest cache).2
        = manifest.filter
            (needs sha1 (purge full (manifest.map (·.checksum)) cache)) := by
      simp [verify_manifest, verifyAll_eq_filter]
    rw [this]
    refine List.mem_filter.mpr ⟨hb, ?_⟩
    simpa [verify_manifest] using hneeds

/-- Concrete instance of C2, the spec's own stale-purge example: cache
{A, B, C}, manifest checksums {B, D}, B hashing correctly; bundle D has
no cache file after the purge and lands in the needed list. -/
theorem C2_witness :
    (⟨"D", "0", []⟩ : Bundle) ∈
      (verify_manifest (fun d => if d == [2] then "B" else "X") false
        [⟨"B", "0", []⟩, ⟨"D", "0", []⟩]
        [("A", [1]), ("B", [2]), ("C", [3])]).2 :=
  (C2_verify_manifest_purge_and_needed
      (fun d => if d == [2] then "B" else "X") false
      [⟨"B", "0", []⟩, ⟨"D", "0", []⟩]
      [("A", [1]), ("B", [2]), ("C", [3])]).2.2
    ⟨"D", "0", []⟩ (by decide) (by decide)

/-- A bundle's download checksum-verified: the transfer completed and the
SHA-1 of the written bytes equals the bundle checksum. -/
def downloadVerified (sha1 : Bytes → String) (fetch : String → Bytes × Bool)
    (b : Bundle) : Prop :=
  (fetch b.checksum).2 = true ∧ sha1 (fetch b.checksum).1 = b.checksum

theorem patchLoop_invariant (sha1 : Bytes → String)
    (fetch : String → Bytes × Bool) (hasStream : Bool) :
    ∀ (l : List Bundle) (cache : Fs) (acc : List Bundle),
      (∀ b ∈ (patchLoop sha1 fetch hasStream l cache acc).2.2,
          b ∈ acc ∨ downloadVerified sha1 fetch b)
      ∧ (∀ b ∈ l, (fetch b.checksum).2 = true →
          sha1 (fetch b.checksum).1 ≠ b.checksum →
          (patchLoop sha1 fetch hasStream l cache acc).1 = false) := by
  intro l
  induction l with
  | nil =>
    intro cache acc
    exact ⟨fun b hb => Or.inl hb, fun b hb => absurd hb (List.not_mem_nil b)⟩
  | cons hd rest ih =>
    intro cache acc
    cases hasStream with
    | false =>
      constructor
      · intro b hb
        simp [patchLoop, download_bundle] at hb
        exact Or.inl hb
      · intro b _ _ _
        simp [patchLoop, download_bundle]
    | true =>
      cases hok : (fetch hd.checksum).2 with
      | false =>
        constructor
        · intro b hb
          simp only [patchLoop, download_bundle, if_pos rfl, hok] at hb
          simp at hb
          exact Or.inl hb
        · intro b _ _ _
          simp [patchLoop, download_bundle, hok]
      | true =>
        cases hsha : sha1 (fetch hd.checksum).1 == hd.checksum with
        | false =>
          constructor
          · intro b hb
            simp only [patchLoop, download_bundle, if_pos rfl, hok,
              hsha] at hb
            simp at hb
            exact Or.inl hb
          · intro b _ _ _
            simp [patchLoop, download_bundle, hok, hsha]
        | true =>
          have hver : downloadVerified sha1 fetch hd :=
            ⟨hok, by simpa using hsha⟩
          have hred : patchLoop sha1 fetch true (hd :: rest) cache acc
              = patchLoop sha1 fetch true rest
                  (fsWrite cache hd.checksum (fetch hd.checksum).1)
                  (acc ++ [hd]) := by
            simp [patchLoop, download_bundle, hok, hsha]
          constructor
          · intro b hb
            rw [hred] at hb
            rcases (ih _ _).1 b hb with hacc | hv
            · rcases List.mem_append.mp hacc with h1 | h1
              · exact Or.inl h1
              · have : b = hd := by simpa using h1
                exact Or.inr (this ▸ hver)
            · exact Or.inr hv
          · intro b hb hfok hmm
            rw [hred]
            rcases List.mem_cons.mp hb with h1 | h1
            · exact absurd (h1 ▸ hver).2 (h1 ▸ hmm)
            · exact (ih _ _).2 b h1 hfok hmm

/-- C3: if the SHA-1 digest of a freshly downloaded blob differs from the
bundle checksum, the patch run reports failure, the bundle is never
submitted for extraction, and every bundle that was submitted for
extraction had a checksum-verified download. -/
theorem C3_download_mismatch_fails_run (sha1 : Bytes → String)
    (fetch : String → Bytes × Bool) (extract_ok : Bundle → Bool)
    (hasStream : Bool) (bundles : List Bundle) (cache : Fs) (b : Bundle)
    (data : Bytes) (hmem : b ∈ bundles) (hf : fetch b.checksum = (data, true))
    (hm : sha1 data ≠ b.checksum) :
    (patchRun sha1 fetch extract_ok hasStream bundles cache).1 = false
    ∧ b ∉ (patchRun sha1 fetch extract_ok hasStream bundles cache).2.2
    ∧ ∀ b' ∈ (patchRun sha1 fetch extract_ok hasStream bundles cache).2.2,
        downloadVerified sha1 fetch b' := by
  have hfok : (fetch b.checksum).2 = true := by rw [hf]
  have hsha : sha1 (fetch b.checksum).1 ≠ b.checksum := by rw [hf]; exact hm
  have hsorted : b ∈ bundles.mergeSort (fun a b => pyInt b.size ≤ pyInt a.size)
      := List.mem_mergeSort.mpr hmem
  have hinv := patchLoop_invariant sha1 fetch hasStream
    (bundles.mergeSort (fun a b => pyInt b.size ≤ pyInt a.size)) cache []
  have hverified : ∀ b' ∈ (patchLoop sha1 fetch hasStream
      (bundles.mergeSort (fun a b => pyInt b.size ≤ pyInt a.size))
      cache []).2.2, downloadVerified sha1 fetch b' := by
    intro b' hb'
    rcases hinv.1 b' hb' with h1 | h1
    · exact absurd h1 (List.not_mem_nil b')
    · exact h1
  refine ⟨?_, ?_, ?_⟩
  · simp only [patchRun]
    rw [hinv.2 b hsorted hfok hsha]
    rfl
  · intro hb
    simp only [patchRun] at hb
    exact hsha (hverified b hb).2
  · intro b' hb'
    simp only [patchRun] at hb'
    exact hverified b' hb'

/-- Concrete instance of C3: a one-bundle run whose fetched bytes hash to
a wrong digest fails and extracts nothing. -/
theorem C3_witness :
    (patchRun (fun _ => "bad") (fun _ => ([7], true)) (fun _ => true) true
      [⟨"c", "1", []⟩] []).1 = false
    ∧ (⟨"c", "1", []⟩ : Bundle) ∉
        (patchRun (fun _ => "bad") (fun _ => ([7], true)) (fun _ => true) true
          [⟨"c", "1", []⟩] []).2.2 :=
  ⟨(C3_download_mismatch_fails_run (fun _ => "bad") (fun _ => ([7], true))
      (fun _ => true) true [⟨"c", "1", []⟩] [] ⟨"c", "1", []⟩ [7]
      (by decide) rfl (by decide)).1,
   (C3_download_mismatch_fails_run (fun _ => "bad") (fun _ => ([7], true))
      (fun _ => true) true [⟨"c", "1", []⟩] [] ⟨"c", "1", []⟩ [7]
      (by decide) rfl (by decide)).2.1⟩

/-- C9: a completed download whose digest mismatches returns failure, yet
the corrupt blob stays in the cache with the fetched bytes; when those
bytes were not already cached under that name, the on-error cache state
differs from the pre-call state. -/
theorem C9_download_mismatch_leaves_corrupt_blob (sha1 : Bytes → String)
    (fetch : String → Bytes × Bool) (cache : Fs) (b : Bundle) (data : Bytes)
    (hf : fetch b.checksum = (data, true)) (hm : sha1 data ≠ b.checksum) :
    download_bundle sha1 fetch true cache b
      = (false, fsWrite cache b.checksum data)
    ∧ fsLookup (download_bundle sha1 fetch true cache b).2 b.checksum
        = some data
    ∧ (fsLookup cache b.checksum ≠ some data →
        (download_bundle sha1 fetch true cache b).2 ≠ cache) := by
  have hbeq : (sha1 data == b.checksum) = false := by
    simpa using hm
  have h1 : download_bundle sha1 fetch true cache b
      = (false, fsWrite cache b.checksum data) := by
    simp [download_bundle, hf, hbeq]
  refine ⟨h1, ?_, ?_⟩
  · rw [h1]
    exact fsLookup_fsWrite_self cache b.checksum data
  · intro hne heq
    apply hne
    rw [← heq, h1]
    exact fsLookup_fsWrite_self cache b.checksum data

/-- Concrete instance of C9: the mismatching blob [7] for checksum "c" is
still in the cache after the failed download. -/
theorem C9_witness :
    download_bundle (fun _ => "bad") (fun _ => ([7], true)) true []
        ⟨"c", "1", []⟩
      = (false, fsWrite [] "c" [7])
    ∧ fsLookup (download_bundle (fun _ => "bad") (fun _ => ([7], true)) true
        [] ⟨"c", "1", []⟩).2 "c" = some [7] :=
  ⟨(C9_download_mismatch_leaves_corrupt_blob (fun _ => "bad")
      (fun _ => ([7], true)) [] ⟨"c", "1", []⟩ [7] rfl (by decide)).1,
   (C9_download_mismatch_leaves_corrupt_blob (fun _ => "bad")
      (fun _ => ([7], true)) [] ⟨"c", "1", []⟩ [7] rfl (by decide)).2.1⟩

/-- C4 as stated is false: the source branches on the raw `sizeZ` string
being different from `"0"`, not on the numeric value being nonzero.  For
the entry with `sizeZ = "00"` (numeric value 0) the decompression branch
is taken, so the produced content is not the `size` bytes copied
verbatim that the claim requires for a zero `sizeZ`. -/
theorem C4_counterexample :
    pyInt "00" = 0
    ∧ extract_entry (fun _ => none) [1, 2, 3, 4, 5]
        ⟨"/f", "0", "3", "00", false⟩
      ≠ some (readAt [1, 2, 3, 4, 5] (pyInt "0") (pyInt "3")) := by
  decide

/-- C4 amended: when the entry's `sizeZ` string differs from `"0"`,
exactly `int(sizeZ)` bytes are read at the entry's offset and their
decompression is the produced content; when `sizeZ` is exactly `"0"`,
`int(size)` bytes are read at the offset and produced verbatim with no
decompression; a read at offset `off` of `len` bytes within the blob
yields exactly `len` bytes. -/
theorem C4_extract_entry_branches (d : Bytes → Option Bytes) (blob : Bytes)
    (e : Entry) :
    (e.sizeZ ≠ "0" → extract_entry d blob e
        = d (readAt blob (pyInt e.offset) (pyInt e.sizeZ)))
    ∧ (e.sizeZ = "0" → extract_entry d blob e
        = some (readAt blob (pyInt e.offset) (pyInt e.size)))
    ∧ ∀ off len, off + len ≤ blob.length →
        (readAt blob off len).length = len := by
  refine ⟨?_, ?_, ?_⟩
  · intro h
    simp [extract_entry, h]
  · intro h
    simp [extract_entry, h]
  · intro off len hlen
    simp only [readAt, List.length_take, List.length_drop]
    omega

/-- Concrete instance of amended C4: a verbatim entry copies the two
bytes at its offset; a compressed entry hands the two bytes at its
offset to the decompressor. -/
theorem C4_witness :
    extract_entry some [1, 2, 3] ⟨"/f", "0", "2", "0", false⟩ = some [1, 2]
    ∧ extract_entry some [1, 2, 3] ⟨"/f", "1", "9", "2", false⟩
        = some [2, 3] := by
  constructor
  · have h := (C4_extract_entry_branches some [1, 2, 3]
      ⟨"/f", "0", "2", "0", false⟩).2.1 rfl
    rw [h]; rfl
  · have h := (C4_extract_entry_branches some [1, 2, 3]
      ⟨"/f", "1", "9", "2", false⟩).1 (by decide)
    rw [h]; rfl

/-- C5: for an entry whose path starts with the path separator, the
destination is the installation root joined with the stream name and the
path with the leading separator stripped; the write removes any
pre-existing file at that path and creates the new content there,
leaving every other path alone. -/
theorem C5_dest_path_and_overwrite (root stream : String) (e : Entry)
    (fs : Fs) (content : Bytes) (h : e.filename.data.head? = some '/') :
    destPath root stream e
      = root ++ "/" ++ stream ++ "/" ++ stripLeadingSep e.filename
    ∧ fsLookup (fsWrite fs (destPath root stream e) content)
        (destPath root stream e) = some content
    ∧ ∀ q, q ≠ destPath root stream e →
        fsLookup (fsWrite fs (destPath root stream e) content) q
          = fsLookup fs q := by
  refine ⟨?_, fsLookup_fsWrite_self _ _ _,
    fun q hq => fsLookup_fsWrite_other _ _ _ _ hq⟩
  cases hd : e.filename.data with
  | nil => rw [hd] at h; cases h
  | cons c rest =>
    rw [hd] at h
    have hc : c = '/' := by simpa using h
    subst hc
    simp [destPath, pyDrop1, stripLeadingSep, hd]

/-- Concrete instance of C5 with entry path "/a/b" under root "r" and
stream "s": overwrite semantics at the computed destination. -/
theorem C5_witness :
    destPath "r" "s" ⟨"/a/b", "0", "1", "0", false⟩
      = "r" ++ "/" ++ "s" ++ "/" ++ stripLeadingSep "/a/b"
    ∧ fsLookup
        (fsWrite [(destPath "r" "s" ⟨"/a/b", "0", "1", "0", false⟩, [9])]
          (destPath "r" "s" ⟨"/a/b", "0", "1", "0", false⟩) [1])
        (destPath "r" "s" ⟨"/a/b", "0", "1", "0", false⟩) = some [1] :=
  ⟨(C5_dest_path_and_overwrite "r" "s" ⟨"/a/b", "0", "1", "0", false⟩ []
      [1] (by decide)).1,
   (C5_dest_path_and_overwrite "r" "s" ⟨"/a/b", "0", "1", "0", false⟩
      [(destPath "r" "s" ⟨"/a/b", "0", "1", "0", false⟩, [9])]
      [1] (by decide)).2.1⟩

/-- C6: an entry carrying the executable flag gets the owner-execute bit
(bit 6, `S_IEXEC` = 0o100) set in the produced file's mode with every
other bit preserved; without the flag the mode is untouched. -/
theorem C6_executable_bit (e : Entry) (mode : Nat) :
    (e.executable = true →
      (applyExecutable e mode).testBit 6 = true
      ∧ ∀ i, i ≠ 6 →
          (applyExecutable e mode).testBit i = mode.testBit i)
    ∧ (e.executable = false → applyExecutable e mode = mode) := by
  constructor
  · intro h
    have h64 : S_IEXEC = 2 ^ 6 := by norm_num [S_IEXEC]
    simp only [applyExecutable, h, if_pos]
    constructor
    · rw [Nat.testBit_lor]
      have hb : S_IEXEC.testBit 6 = true := by decide
      simp [hb]
    · intro i hi
      rw [Nat.testBit_lor]
      have hb : S_IEXEC.testBit i = false := by
        rw [h64]
        exact Nat.testBit_two_pow_of_ne (fun hh => hi hh.symm)
      simp [hb]
  · intro h
    simp [applyExecutable, h]

/-- Concrete instance of C6: mode 0o644 becomes 0o744 for a flagged
entry and stays 0o644 for an unflagged one. -/
theorem C6_witness :
    (applyExecutable ⟨"/f", "0", "1", "0", true⟩ 420).testBit 6 = true
    ∧ applyExecutable ⟨"/f", "0", "1", "0", false⟩ 420 = 420 :=
  ⟨((C6_executable_bit ⟨"/f", "0", "1", "0", true⟩ 420).1 rfl).1,
   (C6_executable_bit ⟨"/f", "0", "1", "0", false⟩ 420).2 rfl⟩

theorem display_progress_skip (f1 t2 d2 : ℚ) (hf : f1 ≠ 0)
    (hclose : |f1 - fraction t2 d2| < 1 / 100) :
    (display_progress ⟨some f1⟩ t2 d2).2 = false := by
  by_cases ht2 : pyTrunc t2 = 0
  · simp [display_progress, ht2]
  · simp only [display_progress, if_neg ht2]
    rw [if_pos ⟨hf, hclose⟩]

/-- C8 as stated is false: the guard `if self.last_fraction and ...`
treats a stored fraction of 0 as falsy, so after a notification is
displayed at fraction 0 the very next call displays again even though
the fraction advanced by less than 0.01.  Concretely: total 100,
downloaded 0 displays; downloaded 1/2 (fraction 1/200, advancement
1/200 < 1/100) displays again. -/
theorem C8_counterexample :
    (display_progress ⟨none⟩ 100 0).2 = true
    ∧ (display_progress (display_progress ⟨none⟩ 100 0).1 100 (1 / 2)).2
        = true
    ∧ |fraction 100 0 - fraction 100 (1 / 2)| < 1 / 100 := by
  refine ⟨?_, ?_, ?_⟩
  · norm_num [display_progress, pyTrunc]
  · norm_num [display_progress, pyTrunc, fraction]
  · norm_num [fraction]
    rw [abs_of_nonneg (by norm_num)]
    norm_num

/-- C8 amended: after a notification is displayed with a nonzero
fraction, no further notification is displayed until the fraction has
changed by at least 0.01; a displayed fraction of exactly 0 is stored as
a falsy value and does not suppress the next notification. -/
theorem C8_amended_progress_throttle (m : ProgressMeter) (t1 d1 t2 d2 : ℚ)
    (h1 : (display_progress m t1 d1).2 = true)
    (hf : fraction t1 d1 ≠ 0)
    (hclose : |fraction t1 d1 - fraction t2 d2| < 1 / 100) :
    (display_progress (display_progress m t1 d1).1 t2 d2).2 = false := by
  by_cases ht1 : pyTrunc t1 = 0
  · simp [display_progress, ht1] at h1
  · have hstate : (display_progress m t1 d1).1 = ⟨some (fraction t1 d1)⟩ := by
      cases hm : m.last_fraction with
      | none => simp [display_progress, if_neg ht1, hm]
      | some last =>
        simp only [display_progress, if_neg ht1, hm] at h1 ⊢
        split at h1
        · exact absurd h1 (by simp)
        · rename_i hcond
          rw [if_neg hcond]
    rw [hstate]
    exact display_progress_skip (fraction t1 d1) t2 d2 hf hclose

/-- Concrete instance of amended C8: after displaying fraction 1/2, a
call at fraction 251/500 (advancement 1/500) displays nothing. -/
theorem C8_witness :
    (display_progress (display_progress ⟨none⟩ 100 50).1 100
      (251 / 5)).2 = false :=
  C8_amended_progress_throttle ⟨none⟩ 100 50 100 (251 / 5)
    (by norm_num [display_progress, pyTrunc])
    (by norm_num [fraction])
    (by norm_num [fraction]; rw [abs_of_nonneg (by norm_num)]; norm_num)

/-- C7 as stated is false: the source defines no MalformedManifest error
and its `try` catches `URLError` only, so a gzip failure while
decompressing the manifest escapes `get_manifest` as an unhandled
exception rather than a handled failure; moreover the stream list has
already been consumed by then, a side effect.  Concrete run: the stream
list holds "stable", retrieval succeeds, decompression raises. -/
theorem C7_counterexample :
    (get_manifest (fun _ => "") false (.ok [])
        (fun _ => .error .gzipError) (fun _ => .ok []) "stable" []
        ⟨none, some [("stable", ⟨"stable", "u", "t", "m", "a"⟩)], none,
          none, none⟩).1
      = .error .gzipError
    ∧ (get_manifest (fun _ => "") false (.ok [])
        (fun _ => .error .gzipError) (fun _ => .ok []) "stable" []
        ⟨none, some [("stable", ⟨"stable", "u", "t", "m", "a"⟩)], none,
          none, none⟩).2.1.streams
      = none :=
  ⟨rfl, rfl⟩

/-- C7 amended: only URLError during manifest retrieval is handled,
producing a `False` return; a gzip decompression failure, and equally a
JSON decode/shape failure of the decompressed payload, escapes
`get_manifest` unhandled, and by that point the stream list has already
been consumed, so the failure is not free of side effects. -/
theorem C7_amended_manifest_errors_escape (sha1 : Bytes → String)
    (full : Bool) (raw : Bytes) (decompressFn : Bytes → Except PyExc Bytes)
    (parseFn : Bytes → Except PyExc (List Bundle)) (name : String)
    (cache : Fs) (st : PatcherState) (streams : List (String × Stream))
    (strm : String × Stream) (e : PyExc)
    (hs : st.streams = some streams)
    (hfind : streams.find? (fun s => s.1 == name) = some strm)
    (he : e ≠ .urlError) :
    (decompressFn raw = .error e →
        (get_manifest sha1 full (.ok raw) decompressFn parseFn name cache
            st).1 = .error e
        ∧ (get_manifest sha1 full (.ok raw) decompressFn parseFn name
            cache st).2.1.streams = none)
    ∧ (∀ txt, decompressFn raw = .ok txt → parseFn txt = .error e →
        (get_manifest sha1 full (.ok raw) decompressFn parseFn name cache
            st).1 = .error e
        ∧ (get_manifest sha1 full (.ok raw) decompressFn parseFn name
            cache st).2.1.streams = none)
    ∧ (get_manifest sha1 full (.error .urlError) decompressFn parseFn name
        cache st).1 = .ok false := by
  obtain ⟨sname, sval⟩ := strm
  refine ⟨?_, ?_, ?_⟩
  · intro hd
    cases e
    · exact absurd rfl he
    · exact ⟨by simp only [get_manifest, hs, hfind, hd],
        by simp only [get_manifest, hs, hfind, hd]⟩
    · exact ⟨by simp only [get_manifest, hs, hfind, hd],
        by simp only [get_manifest, hs, hfind, hd]⟩
  · intro txt hdz hpz
    cases e
    · exact absurd rfl he
    · exact ⟨by simp only [get_manifest, hs, hfind, hdz, hpz],
        by simp only [get_manifest, hs, hfind, hdz, hpz]⟩
    · exact ⟨by simp only [get_manifest, hs, hfind, hdz, hpz],
        by simp only [get_manifest, hs, hfind, hdz, hpz]⟩
  · simp only [get_manifest, hs, hfind]

/-- Concrete instance of amended C7: with the stream "pte" selected, a
decompression error escapes, a JSON parse error of the decompressed
payload escapes, and a URLError during retrieval is caught as a `False`
return. -/
theorem C7_witness :
    (get_manifest (fun _ => "") false (.ok [7])
        (fun _ => .error .gzipError) (fun _ => .ok []) "pte" []
        ⟨none, some [("pte", ⟨"pte", "u", "t", "m", "a"⟩)], none, none,
          none⟩).1
      = .error .gzipError
    ∧ (get_manifest (fun _ => "") false (.ok [7])
        (fun _ => .ok []) (fun _ => .error .jsonError) "pte" []
        ⟨none, some [("pte", ⟨"pte", "u", "t", "m", "a"⟩)], none, none,
          none⟩).1
      = .error .jsonError
    ∧ (get_manifest (fun _ => "") false (.error .urlError)
        (fun _ => .ok []) (fun _ => .error .jsonError) "pte" []
        ⟨none, some [("pte", ⟨"pte", "u", "t", "m", "a"⟩)], none, none,
          none⟩).1
      = .ok false :=
  ⟨((C7_amended_manifest_errors_escape (fun _ => "") false [7]
      (fun _ => .error .gzipError) (fun _ => .ok []) "pte" []
      ⟨none, some [("pte", ⟨"pte", "u", "t", "m", "a"⟩)], none, none, none⟩
      [("pte", ⟨"pte", "u", "t", "m", "a"⟩)] ("pte", ⟨"pte", "u", "t", "m",
        "a"⟩) .gzipError rfl (by decide) (by decide)).1 rfl).1,
   ((C7_amended_manifest_errors_escape (fun _ => "") false [7]
      (fun _ => .ok []) (fun _ => .error .jsonError) "pte" []
      ⟨none, some [("pte", ⟨"pte", "u", "t", "m", "a"⟩)], none, none, none⟩
      [("pte", ⟨"pte", "u", "t", "m", "a"⟩)] ("pte", ⟨"pte", "u", "t", "m",
        "a"⟩) .jsonError rfl (by decide) (by decide)).2.1 [] rfl rfl).1,
   (C7_amended_manifest_errors_escape (fun _ => "") false [7]
      (fun _ => .ok []) (fun _ => .error .jsonError) "pte" []
      ⟨none, some [("pte", ⟨"pte", "u", "t", "m", "a"⟩)], none, none, none⟩
      [("pte", ⟨"pte", "u", "t", "m", "a"⟩)] ("pte", ⟨"pte", "u", "t", "m",
        "a"⟩) .jsonError rfl (by decide) (by decide)).2.2⟩

/-- C10 as stated is false in its "each at most once per login" part:
`patch` checks `self._bundles` but never deletes it, so after one
successful verification `patch` can succeed twice in a row (here with an
empty needed set). -/
theorem C10_counterexample :
    (PAPatcher.patch (fun _ => "") (fun _ => ([], true)) (fun _ => true) []
        ⟨none, none, none, none, some []⟩).1 = true
    ∧ (PAPatcher.patch (fun _ => "") (fun _ => ([], true)) (fun _ => true)
        (PAPatcher.patch (fun _ => "") (fun _ => ([], true))
          (fun _ => true) [] ⟨none, none, none, none, some []⟩).2.2
        (PAPatcher.patch (fun _ => "") (fun _ => ([], true))
          (fun _ => true) [] ⟨none, none, none, none, some []⟩).2.1).1
      = true := by
  constructor <;>
    simp [PAPatcher.patch, patchRun, patchLoop, List.mergeSort_nil]

/-- C10 amended: `get_streams` returns None without a session ticket and
always leaves the ticket deleted, so a second `get_streams` returns
None; `get_manifest` returns False (with no state change) unless the
stream list exists and contains the requested name, and consumes the
stream list whenever the name is found; `patch` returns False unless
verification has produced the needed set — but `patch` does not consume
the needed set, so only `get_streams` and `get_manifest` are single-shot
per login, while `patch` may succeed repeatedly after one verification.
The success order login, get_streams, get_manifest, patch follows from
these gates since each phase's gate is set only by the previous phase. -/
theorem C10_amended_gating_and_single_shot :
    (∀ (resp : Option (List (String × Stream))) (st : PatcherState),
        st.session = none → (get_streams resp st).1 = none)
    ∧ (∀ resp st, (get_streams resp st).2.session = none)
    ∧ (∀ resp resp2 st,
        (get_streams resp2 (get_streams resp st).2).1 = none)
    ∧ (∀ sha1 full fr dz pz name cache st, st.streams = none →
        get_manifest sha1 full fr dz pz name cache st
          = (.ok false, st, cache))
    ∧ (∀ sha1 full fr dz pz name cache st streams,
        st.streams = some streams →
        streams.find? (fun s => s.1 == name) = none →
        get_manifest sha1 full fr dz pz name cache st
          = (.ok false, st, cache))
    ∧ (∀ sha1 full fr dz pz name cache st streams strm,
        st.streams = some streams →
        streams.find? (fun s => s.1 == name) = some strm →
        (get_manifest sha1 full fr dz pz name cache st).2.1.streams = none)
    ∧ (∀ sha1 fetch ext cache st, st.bundles = none →
        (PAPatcher.patch sha1 fetch ext cache st).1 = false)
    ∧ (∀ sha1 fetch ext cache st,
        ((PAPatcher.patch sha1 fetch ext cache st).2.1.bundles).isSome
          = st.bundles.isSome) := by
  have g1 : ∀ (resp : Option (List (String × Stream))) (st : PatcherState),
      st.session = none → (get_streams resp st).1 = none := by
    intro resp st h
    simp [get_streams, h]
  have g2 : ∀ (resp : Option (List (String × Stream))) (st : PatcherState),
      (get_streams resp st).2.session = none := by
    intro resp st
    cases hs : st.session with
    | none => simp [get_streams, hs]
    | some s => cases resp <;> simp [get_streams, hs]
  refine ⟨g1, g2, fun resp resp2 st => g1 resp2 _ (g2 resp st),
    ?_, ?_, ?_, ?_, ?_⟩
  · intro sha1 full fr dz pz name cache st h
    simp [get_manifest, h]
  · intro sha1 full fr dz pz name cache st streams h hfind
    simp [get_manifest, h, hfind]
  · intro sha1 full fr dz pz name cache st streams strm h hfind
    obtain ⟨sn, sv⟩ := strm
    simp only [get_manifest, h, hfind]
    cases fr with
    | error e => cases e <;> rfl
    | ok raw =>
      cases hdz : dz raw with
      | error e => cases e <;> simp [hdz]
      | ok txt =>
        cases hpz : pz txt with
        | error e => cases e <;> simp [hdz, hpz]
        | ok m => simp [hdz, hpz]
  · intro sha1 fetch ext cache st h
    simp [PAPatcher.patch, h]
  · intro sha1 fetch ext cache st
    cases hb : st.bundles <;> simp [PAPatcher.patch, hb]

/-- Concrete instance of amended C10: without a session ticket
`get_streams` yields None, and without a needed set `patch` fails. -/
theorem C10_witness :
    (get_streams none ⟨none, none, none, none, none⟩).1 = none
    ∧ (PAPatcher.patch (fun _ => "") (fun _ => ([], true)) (fun _ => true)
        [] ⟨none, none, none, none, none⟩).1 = false :=
  ⟨C10_amended_gating_and_single_shot.1 none
      ⟨none, none, none, none, none⟩ rfl,
   C10_amended_gating_and_single_shot.2.2.2.2.2.2.1 (fun _ => "")
      (fun _ => ([], true)) (fun _ => true) []
      ⟨none, none, none, none, none⟩ rfl⟩

end Papatcher
